import Mathlib

/-!
Shallow embedding of `src/voicechat.py` (class `AnythingLLMVAD`).

The embedding covers the three core components the specification describes:
* the command resolver inside `listen_for_keywords` (lines 109-133),
* the debounce gate `trigger_dictation` (lines 83-107), and
* the frame-ingestion state machine that is the body of the `while` loop in
  `monitor_voice` (lines 320-355).

Audio frames are opaque and represented by natural numbers; a frame's
classification result is `Option Bool` (`none` models the classifier raising,
which the source swallows with `except: continue`).  Transcribed text is a
list of characters; Python's `str.lower` and the `kw in text` substring test
are translated directly.  Timestamps are rationals (Python `time.time()`
floats compared with `<` against the 1.0-second debounce interval).
-/

namespace Voicechat

/-- The action identifiers bound in the `self.keywords` table of the source
(lines 38-51), plus the fallback dictation action. -/
inductive ActionId where
  | send
  | clear
  | newChat
  | scrollUp
  | scrollDown
  | cancelInput
  | deleteLastWord
  | undoLastAction
  | copyResponse
  | pasteText
  | stopListening
  | startListening
  | defaultDictation
deriving DecidableEq

/-- Python `str.lower()` applied character-wise (line 113 of the source). -/
def pyLower (s : List Char) : List Char := s.map Char.toLower

/-- `startsWithL hay pat` holds when `pat` is an initial run of `hay`;
building block for Python's substring test. -/
def startsWithL : List Char → List Char → Bool
  | _, [] => true
  | [], _ :: _ => false
  | a :: ha, b :: pb => a == b && startsWithL ha pb

/-- Python's `pat in hay` substring containment (line 120 of the source). -/
def containsL : List Char → List Char → Bool
  | [], pat => startsWithL [] pat
  | a :: ha, pat => startsWithL (a :: ha) pat || containsL ha pat

/-- The keyword scan of `listen_for_keywords` (lines 119-124): walk the
table in insertion order and return the action of the first phrase contained
in `text`, or `none` when no phrase matches. -/
def findCommand : List (List Char × ActionId) → List Char → Option ActionId
  | [], _ => none
  | (kw, act) :: rest, text =>
    if containsL text kw then some act else findCommand rest text

/-- The `self.keywords` table (lines 38-51), in its Python insertion order. -/
def keywords : List (List Char × ActionId) :=
  [("send".toList, ActionId.send),
   ("clear".toList, ActionId.clear),
   ("new chat".toList, ActionId.newChat),
   ("scroll up".toList, ActionId.scrollUp),
   ("scroll down".toList, ActionId.scrollDown),
   ("cancel".toList, ActionId.cancelInput),
   ("delete".toList, ActionId.deleteLastWord),
   ("undo".toList, ActionId.undoLastAction),
   ("copy".toList, ActionId.copyResponse),
   ("paste".toList, ActionId.pasteText),
   ("stop listening".toList, ActionId.stopListening),
   ("start listening".toList, ActionId.startListening)]

/-- Command selection as the source performs it: lowercase the text
(line 113), scan the table (lines 119-124), fall back to dictation when no
keyword phrase occurs (lines 127-128). -/
def resolve (table : List (List Char × ActionId)) (text : List Char) : ActionId :=
  match findCommand table (pyLower text) with
  | some a => a
  | none => ActionId.defaultDictation

/-- Command selection as the specification words it: normalize to lowercase,
take `List.find?` over the table in order for the first phrase occurring as a
substring, else the `DefaultDictation` action. -/
def resolveSpec (table : List (List Char × ActionId)) (text : List Char) : ActionId :=
  match table.find? (fun p => containsL (pyLower text) p.1) with
  | some p => p.2
  | none => ActionId.defaultDictation

/-- `self.debounce_time = 1.0` (line 23). -/
def debounce_time : ℚ := 1

/-- `trigger_dictation` (lines 83-107) as a function of the stored
`last_trigger_time`, the current time, and whether the activation subprocess
succeeds (`execOk = false` models `subprocess.CalledProcessError`).  Returns
whether dictation was activated together with the new `last_trigger_time`;
on failure the `self.last_trigger_time = current_time` assignment on
line 103 is skipped. -/
def trigger_dictation (last now : ℚ) (execOk : Bool) : Bool × ℚ :=
  if now - last < debounce_time then (false, last)
  else if execOk then (true, now) else (false, last)

/-- The mutable state `listen_for_keywords` touches: `self.listening_mode`
(line 54) and `self.last_trigger_time` (line 25). -/
structure AppState where
  listening_mode : Bool
  last_trigger_time : ℚ
deriving DecidableEq

/-- State effect of executing a command: `stop_listening` (lines 240-243)
and `start_listening` (lines 245-248) toggle `listening_mode`; every other
command is pure UI automation with no core state effect. -/
def applyCommand (a : ActionId) (st : AppState) : AppState :=
  match a with
  | ActionId.stopListening => { st with listening_mode := false }
  | ActionId.startListening => { st with listening_mode := true }
  | _ => st

/-- `listen_for_keywords` (lines 109-133) after a successful transcription:
execute the first matching keyword command, or, when none matched and
`listening_mode` holds, run the debounced fallback.  Returns the action that
actually fired (if any) and the new state. -/
def listen_for_keywords (st : AppState) (text : List Char) (now : ℚ)
    (execOk : Bool) : Option ActionId × AppState :=
  match findCommand keywords (pyLower text) with
  | some act => (some act, applyCommand act st)
  | none =>
    if st.listening_mode then
      match trigger_dictation st.last_trigger_time now execOk with
      | (fired, last) =>
        (if fired then some ActionId.defaultDictation else none,
         { st with last_trigger_time := last })
    else (none, st)

/-- `self.speaking_threshold = 6` (line 20). -/
def speaking_threshold : Nat := 6

/-- The literal `5` in the ready condition `silence_frames >= 5`
(line 345). -/
def short_silence : Int := 5

/-- `self.silence_threshold = 15` (line 21). -/
def silence_threshold : Int := 15

/-- The loop-local state of `monitor_voice` (lines 312-315):
`speaking_frames`, `silence_frames`, `currently_recording`, and the
`speech_frames` buffer. -/
structure LoopState where
  speaking : Int
  silence : Int
  busy : Bool
  buffer : List Nat
deriving DecidableEq

/-- The initial loop state (lines 312-315). -/
def initState : LoopState := ⟨0, 0, false, []⟩

/-- One iteration of the `monitor_voice` loop body (lines 320-355) on a
frame whose classification is `cls`.  `none` models `self.vad.is_speech`
raising, which the source answers with `continue` (lines 325-328): the rest
of the iteration is skipped.  The returned `Option` is the emitted
SegmentReady event (the call to `process_speech_segment`, line 349). -/
def ingest (st : LoopState) (frame : Nat) (cls : Option Bool) :
    LoopState × Option (List Nat) :=
  match cls with
  | none => (st, none)
  | some isSpeech =>
    let st1 : LoopState :=
      if isSpeech then
        let sp := st.speaking + 1
        { st with
          speaking := sp
          silence := 0
          buffer := if sp = 1 then [frame] else st.buffer ++ [frame] }
      else
        { st with
          silence := st.silence + 1
          speaking := if 0 < st.speaking then 0 else st.speaking }
    if speaking_threshold ≤ st1.buffer.length ∧ short_silence ≤ st1.silence ∧
        st1.busy = false then
      ({ st1 with busy := true, buffer := [] }, some st1.buffer)
    else if silence_threshold ≤ st1.silence ∧ st1.busy = true then
      ({ st1 with busy := false }, none)
    else
      (st1, none)

/-- `ingest` extended with the completion signal of the thread spawned by
`process_speech_segment` (line 294): the loop body of `monitor_voice`
contains no code path that reads anything back from that thread, so the
signal is ignored.  This makes the loop's independence from dispatch
completion an explicit, statable fact. -/
def ingestC (st : LoopState) (frame : Nat) (cls : Option Bool)
    (_completed : Bool) : LoopState × Option (List Nat) :=
  ingest st frame cls

/-- Run the loop over a list of (frame, classification) inputs, collecting
every emitted SegmentReady buffer in order. -/
def runAcc (st : LoopState) :
    List (Nat × Option Bool) → LoopState × List (List Nat)
  | [] => (st, [])
  | (f, c) :: rest =>
    let r := ingest st f c
    let rr := runAcc r.1 rest
    (rr.1, match r.2 with | none => rr.2 | some s => s :: rr.2)

/-- Run the loop over inputs that also carry the dispatch-thread completion
signal of `ingestC`. -/
def runC (st : LoopState) :
    List (Nat × Option Bool × Bool) → LoopState × List (List Nat)
  | [] => (st, [])
  | (f, c, comp) :: rest =>
    let r := ingestC st f c comp
    let rr := runC r.1 rest
    (rr.1, match r.2 with | none => rr.2 | some s => s :: rr.2)

/-- Number of open (being-accumulated) segments in a loop state: the loop
owns a single `speech_frames` buffer, open exactly when non-empty. -/
def openSegments (st : LoopState) : Nat :=
  if st.buffer = [] then 0 else 1

/-- The §8 scenario input: 6 speech frames then 5 silence frames, with
distinct frame identifiers. -/
def scenarioInputs : List (Nat × Option Bool) :=
  [(1, some true), (2, some true), (3, some true), (4, some true),
   (5, some true), (6, some true), (7, some false), (8, some false),
   (9, some false), (10, some false), (11, some false)]

/-- The §8 scenario extended with per-frame dispatch-completion signals,
all `false`: the dispatched thread never completes during these frames. -/
def scenarioNoCompletion : List (Nat × Option Bool × Bool) :=
  [(1, some true, false), (2, some true, false), (3, some true, false),
   (4, some true, false), (5, some true, false), (6, some true, false),
   (7, some false, false), (8, some false, false), (9, some false, false),
   (10, some false, false), (11, some false, false)]

lemma findCommand_eq_find (table : List (List Char × ActionId)) (t : List Char) :
    findCommand table t = (table.find? fun p => containsL t p.1).map Prod.snd := by
  induction table with
  | nil => rfl
  | cons p rest ih =>
    obtain ⟨kw, act⟩ := p
    cases hc : containsL t kw with
    | true => simp [findCommand, List.find?, hc]
    | false => simp [findCommand, List.find?, hc, ih]

/-- Claim C5: `resolve` lowercases the text, scans the command table in
insertion order, and yields the action of the first table phrase occurring
as a substring (table order gives priority, exactly one action); with no
occurring phrase it yields the `DefaultDictation` fallback.  Stated as
agreement of the code-side `resolve` with the spec-worded `resolveSpec`,
plus the §8 scenario `"please send this"` resolving to `send`. -/
theorem resolve_first_match_in_order :
    (∀ (table : List (List Char × ActionId)) (text : List Char),
      resolve table text = resolveSpec table text) ∧
    resolve keywords ("please send this".toList) = ActionId.send := by
  constructor
  · intro table text
    unfold resolve resolveSpec
    rw [findCommand_eq_find]
    cases table.find? fun p => containsL (pyLower text) p.1 <;> rfl
  · decide

/-- Claim C10: when the activation subprocess fails, `trigger_dictation`
leaves `last_trigger_time` unchanged, and a later trigger behaves exactly
as if the failed attempt had never happened, so the failure consumes no
debounce window. -/
theorem failed_trigger_keeps_timestamp :
    (∀ (last now : ℚ), trigger_dictation last now false = (false, last)) ∧
    (∀ (last now t : ℚ) (ok : Bool),
      trigger_dictation (trigger_dictation last now false).2 t ok =
        trigger_dictation last t ok) := by
  have hfail : ∀ (last now : ℚ), trigger_dictation last now false = (false, last) := by
    intro last now
    unfold trigger_dictation
    split
    · rfl
    · rfl
  refine ⟨hfail, ?_⟩
  intro last now t ok
  rw [hfail]

/-- Claim C4 (amended): when the classifier raises on a frame, the loop
body skips the frame entirely (`except: continue`): the state is unchanged
and no event is emitted — the frame is not treated as silence. -/
theorem classifier_error_skips_frame :
    ∀ (st : LoopState) (f : Nat), ingest st f none = (st, none) :=
  fun _ _ => rfl

/-- Claim C4 counterexample: after six speech frames, an error frame leaves
the silence counter at 0 while a silence frame would set it to 1, and six
speech frames followed by five error frames emit no SegmentReady — the
claimed treat-as-silence behaviour would have emitted one. -/
theorem classifier_error_not_silence_cex :
    (ingest ⟨6, 0, false, [1, 2, 3, 4, 5, 6]⟩ 7 none).1.silence = 0 ∧
    (ingest ⟨6, 0, false, [1, 2, 3, 4, 5, 6]⟩ 7 (some false)).1.silence = 1 ∧
    (runAcc initState
      [(1, some true), (2, some true), (3, some true), (4, some true),
       (5, some true), (6, some true), (7, none), (8, none), (9, none),
       (10, none), (11, none)]).2 = [] := by
  decide

/-- Claim C2 counterexample: the §8 scenario (6 speech frames then 5
silence frames) emits exactly one SegmentReady, but its buffer holds the 6
speech frames, not 11 — silence frames are never appended. -/
theorem scenario_buffer_has_six_frames_cex :
    (runAcc initState scenarioInputs).2 = [[1, 2, 3, 4, 5, 6]] ∧
    (runAcc initState scenarioInputs).2.map List.length ≠ [11] := by
  decide

/-- Claim C2 (amended): a silence frame never appends to the buffer (it
leaves the buffer unchanged, or clears it when the segment is emitted), and
the §8 scenario emits exactly one SegmentReady whose buffer holds the 6
speech frames. -/
theorem only_speech_frames_buffered :
    (∀ (st : LoopState) (f : Nat),
      (ingest st f (some false)).1.buffer = st.buffer ∨
      (ingest st f (some false)).1.buffer = []) ∧
    (runAcc initState scenarioInputs).2.map List.length = [6] := by
  constructor
  · intro st f
    simp only [ingest, Bool.false_eq_true, if_false]
    split_ifs <;> simp
  · decide

/-- Claim C3 counterexample: three speech frames, one silence frame, then a
resumed speech frame leave the buffer holding only the resumed frame — the
frames buffered before the interior silence run are gone. -/
theorem resume_discards_prior_frames_cex :
    (runAcc initState
      [(1, some true), (2, some true), (3, some true), (4, some false),
       (5, some true)]).1.buffer = [5] ∧
    ¬ (1 : Nat) ∈ (runAcc initState
      [(1, some true), (2, some true), (3, some true), (4, some false),
       (5, some true)]).1.buffer := by
  decide

/-- Claim C3 (amended): a silence frame during accumulation resets
`speaking_frames` to 0 (and by `only_speech_frames_buffered` the silence
frame itself does not touch the buffer), but the first speech frame after
the run resets the buffer to just that frame — earlier frames are
discarded, not retained. -/
theorem silence_resets_speaking_resume_resets_buffer :
    (∀ (st : LoopState) (f : Nat), 0 < st.speaking →
      (ingest st f (some false)).1.speaking = 0) ∧
    (∀ (st : LoopState) (f : Nat), st.speaking = 0 →
      (ingest st f (some true)).1.buffer = [f]) := by
  constructor
  · intro st f h
    simp only [ingest, Bool.false_eq_true, if_false, if_pos h]
    split_ifs <;> rfl
  · intro st f h
    simp only [ingest, if_true, h, zero_add]
    split_ifs with h1 h2
    · exact absurd h1.1 (by simp [speaking_threshold])
    · exact absurd h2.1 (by simp [silence_threshold])
    · simp

set_option maxRecDepth 4000 in
/-- Claim C1 counterexample: running the §8 scenario (which dispatches a
segment and sets `currently_recording`) followed by ten silence frames with
the dispatch-completion signal `false` throughout ends with the busy flag
cleared even though no dispatch ever completed; conversely one silence
frame carrying completion signal `true` leaves the flag set.  The flag is
therefore not cleared "exactly when a dispatch completes". -/
theorem busy_cleared_without_completion_cex :
    (runC initState (scenarioNoCompletion ++
      [(12, some false, false), (13, some false, false),
       (14, some false, false), (15, some false, false),
       (16, some false, false), (17, some false, false),
       (18, some false, false), (19, some false, false),
       (20, some false, false), (21, some false, false)])).1.busy = false ∧
    (runC initState (scenarioNoCompletion ++
      [(12, some false, true)])).1.busy = true := by
  decide

/-- Claim C1 (amended): while the busy flag (`currently_recording`) is set,
an ingested classified frame never emits a SegmentReady — so no second
dispatch is started — and the flag is cleared by the ingestion loop exactly
when `silence_frames` has reached `silence_threshold` (15), whatever the
dispatch-thread completion signal says. -/
theorem busy_cleared_by_long_silence (st : LoopState) (f : Nat) (b : Bool)
    (comp : Bool) (h : st.busy = true) :
    (ingestC st f (some b) comp).2 = none ∧
    ((ingestC st f (some b) comp).1.busy = false ↔
      silence_threshold ≤ (ingestC st f (some b) comp).1.silence) := by
  cases b
  · simp only [ingestC, ingest, Bool.false_eq_true, if_false]
    simp only [h, and_false, Bool.true_eq_false, false_and, and_true, if_false]
    split_ifs <;> simp_all
  · simp only [ingestC, ingest, if_true]
    simp only [h, and_false, Bool.true_eq_false, false_and, and_true, if_false]
    split_ifs <;> simp_all

/-- Witness for `busy_cleared_by_long_silence` at a concrete busy state. -/
theorem busy_cleared_by_long_silence_witness :
    (ingestC ⟨0, 14, true, []⟩ 3 (some false) true).2 = none ∧
    ((ingestC ⟨0, 14, true, []⟩ 3 (some false) true).1.busy = false ↔
      silence_threshold ≤ (ingestC ⟨0, 14, true, []⟩ 3 (some false) true).1.silence) :=
  busy_cleared_by_long_silence ⟨0, 14, true, []⟩ 3 false true rfl

/-- Claim C6: with the debounce gate open for the first fallback resolution
at `t1` (so it fires and records `t1`), a second fallback resolution at
`t2 > t1` is suppressed with no timestamp update when `t2 - t1` is below
the debounce interval, and fires when `t2 - t1` reaches it; keyword
commands are executed without ever consulting the debounce clock. -/
theorem fallback_debounce (last0 t1 t2 : ℚ)
    (h1 : debounce_time ≤ t1 - last0) (_h2 : t1 < t2) :
    trigger_dictation last0 t1 true = (true, t1) ∧
    (t2 - t1 < debounce_time → trigger_dictation t1 t2 true = (false, t1)) ∧
    (debounce_time ≤ t2 - t1 → trigger_dictation t1 t2 true = (true, t2)) ∧
    (∀ (st : AppState) (text : List Char) (now : ℚ) (ok : Bool)
        (act : ActionId),
      findCommand keywords (pyLower text) = some act →
      (listen_for_keywords st text now ok).1 = some act) := by
  refine ⟨?_, ?_, ?_, ?_⟩
  · unfold trigger_dictation
    rw [if_neg (not_lt.mpr h1), if_pos rfl]
  · intro h
    unfold trigger_dictation
    rw [if_pos h]
  · intro h
    unfold trigger_dictation
    rw [if_neg (not_lt.mpr h), if_pos rfl]
  · intro st text now ok act hf
    unfold listen_for_keywords
    rw [hf]

/-- Witness for `fallback_debounce`: a fire at time 2 after a last trigger
at time 1, then a suppressed refire at time 5/2. -/
theorem fallback_debounce_witness :
    trigger_dictation 1 2 true = (true, 2) ∧
    trigger_dictation 2 (5 / 2) true = (false, 2) := by
  have h := fallback_debounce 1 2 (5 / 2) (by norm_num [debounce_time])
    (by norm_num)
  exact ⟨h.1, h.2.1 (by norm_num [debounce_time])⟩

lemma ingest_silence_closed (st : LoopState) (f : Nat)
    (hb : st.buffer = []) (hbusy : st.busy = false) :
    ingest st f (some false) =
      (⟨if 0 < st.speaking then 0 else st.speaking,
        st.silence + 1, st.busy, st.buffer⟩, none) := by
  simp only [ingest, Bool.false_eq_true, if_false]
  rw [if_neg (by simp [hb, speaking_threshold]), if_neg (by simp [hbusy])]

/-- Claim C7: a stream in which every frame is classified as non-speech
(the empty stream included) never emits a SegmentReady event. -/
theorem all_silence_never_ready (fs : List Nat) :
    (runAcc initState (fs.map fun f => (f, some false))).2 = [] := by
  suffices h : ∀ st : LoopState, st.buffer = [] → st.busy = false →
      (runAcc st (fs.map fun f => (f, some false))).2 = [] by
    exact h initState rfl rfl
  induction fs with
  | nil => intro st _ _; rfl
  | cons f rest ih =>
    intro st hb hbusy
    simp only [List.map_cons, runAcc]
    rw [ingest_silence_closed st f hb hbusy]
    exact ih _ hb hbusy

lemma ingest_nonneg_step (st : LoopState) (f : Nat) (c : Option Bool)
    (h1 : 0 ≤ st.speaking) (h2 : 0 ≤ st.silence) :
    0 ≤ (ingest st f c).1.speaking ∧ 0 ≤ (ingest st f c).1.silence := by
  match c with
  | none => exact ⟨h1, h2⟩
  | some true =>
    simp only [ingest, if_true]
    split_ifs <;> refine ⟨?_, ?_⟩ <;> simp <;> omega
  | some false =>
    simp only [ingest, Bool.false_eq_true, if_false]
    split_ifs <;> refine ⟨?_, ?_⟩ <;> simp <;> omega

/-- Claim C8: along every frame sequence fed from the initial state, the
speaking and silence counters stay non-negative and at most one segment is
open at any time. -/
theorem counters_nonneg_single_open (inputs : List (Nat × Option Bool)) :
    0 ≤ (runAcc initState inputs).1.speaking ∧
    0 ≤ (runAcc initState inputs).1.silence ∧
    openSegments (runAcc initState inputs).1 ≤ 1 := by
  have hopen : ∀ st : LoopState, openSegments st ≤ 1 := by
    intro st
    unfold openSegments
    split <;> omega
  suffices h : ∀ st : LoopState, 0 ≤ st.speaking → 0 ≤ st.silence →
      0 ≤ (runAcc st inputs).1.speaking ∧ 0 ≤ (runAcc st inputs).1.silence by
    obtain ⟨a, b⟩ := h initState le_rfl le_rfl
    exact ⟨a, b, hopen _⟩
  induction inputs with
  | nil => intro st h1 h2; exact ⟨h1, h2⟩
  | cons p rest ih =>
    obtain ⟨f, c⟩ := p
    intro st h1 h2
    obtain ⟨g1, g2⟩ := ingest_nonneg_step st f c h1 h2
    simp only [runAcc]
    exact ih (ingest st f c).1 g1 g2

/-- Claim C9: with listening mode off, a transcription containing a
configured keyword still executes that command — in particular
`"start listening"` re-enables the mode — while a transcription matching no
keyword fires nothing, not even the fallback: only the fallback is gated by
listening mode. -/
theorem keyword_path_not_gated_by_mode (l now : ℚ) (ok : Bool) :
    (∀ (text : List Char) (act : ActionId),
      findCommand keywords (pyLower text) = some act →
      listen_for_keywords ⟨false, l⟩ text now ok =
        (some act, applyCommand act ⟨false, l⟩)) ∧
    listen_for_keywords ⟨false, l⟩ ("start listening".toList) now ok =
      (some ActionId.startListening, ⟨true, l⟩) ∧
    (∀ text : List Char, findCommand keywords (pyLower text) = none →
      listen_for_keywords ⟨false, l⟩ text now ok = (none, ⟨false, l⟩)) := by
  have hstart : findCommand keywords (pyLower ("start listening".toList)) =
      some ActionId.startListening := by decide
  refine ⟨?_, ?_, ?_⟩
  · intro text act hf
    unfold listen_for_keywords
    rw [hf]
  · unfold listen_for_keywords
    rw [hstart]
    rfl
  · intro text hf
    unfold listen_for_keywords
    rw [hf]
    rfl

/-- Witness for `keyword_path_not_gated_by_mode`: `"start listening"`
heard with listening mode off executes `start_listening` and re-enables
the mode. -/
theorem keyword_path_not_gated_by_mode_witness :
    listen_for_keywords ⟨false, 0⟩ ("start listening".toList) 0 true =
      (some ActionId.startListening, ⟨true, 0⟩) :=
  (keyword_path_not_gated_by_mode 0 0 true).2.1

/-- Witness for `silence_resets_speaking_resume_resets_buffer` at concrete
states. -/
theorem silence_resets_speaking_resume_resets_buffer_witness :
    (ingest ⟨3, 1, false, [1, 2, 3]⟩ 9 (some false)).1.speaking = 0 ∧
    (ingest ⟨0, 1, false, [1, 2, 3]⟩ 9 (some true)).1.buffer = [9] :=
  ⟨silence_resets_speaking_resume_resets_buffer.1 ⟨3, 1, false, [1, 2, 3]⟩ 9
      (by decide),
   silence_resets_speaking_resume_resets_buffer.2 ⟨0, 1, false, [1, 2, 3]⟩ 9
      rfl⟩

end Voicechat
